import Mathlib

/-!
# Verification of the header coordination and page-path resolution subsystems

Shallow embedding of the relevant client code of the repository:

* `GlobalHeaderClient.handleScroll` — the scroll-driven header-state
  derivation, the logo-swap side effect;
* `HamburgerMenu` / `MenuItemClient` — the independent subscriber derivation
  of the reversed-color decision;
* `PageHeaderSettings` — the page-level mount/unmount broadcast of the
  `reverseHeaderColors` setting;
* `buildPagePath` — the parent-chain walk that resolves nested page paths;
* `fetchStandings` / `fetchTeamPlayers` — the TTL-cached external lookups.

JavaScript truthiness of optional strings (`undefined`/`''` are falsy) is
modelled by `optTruthy`.  Machine-level concerns (actual DOM, network) are
replaced by explicit state records and response oracles.
-/

/-- JS truthiness of an optional string: `undefined`/`null` and the empty
string are falsy, every other string is truthy. -/
def optTruthy : Option String → Bool
  | none => false
  | some s => !(s == "")

/-! ## Header display-state derivation (`GlobalHeaderClient.handleScroll`) -/

/-- The three derived booleans of `handleScroll`. -/
structure HeaderDisplayState where
  applyReverseText : Bool
  applyBackground : Bool
  swapLogo : Bool
deriving Repr, DecidableEq

/-- Embedding of the derivation in `GlobalHeaderClient.handleScroll`:
`shouldApplyReverseTextColors = isTransparent ? (reverseHeaderColors || scrolled) : scrolled`,
`shouldApplyBackground = scrolled`,
`shouldSwapLogo = isTransparent ? (reverseHeaderColors || scrolled) : scrolled`. -/
def headerDerivation (isTransparent reverseHeaderColors scrolled : Bool) :
    HeaderDisplayState where
  applyReverseText := if isTransparent then reverseHeaderColors || scrolled else scrolled
  applyBackground := scrolled
  swapLogo := if isTransparent then reverseHeaderColors || scrolled else scrolled

/-- The authoritative derivation table of spec §4.3, transcribed row by row
(`any` rows cover both values of the reverse flag). -/
def specDerivationTable (isTransparent reverseFlag scrolled : Bool) :
    HeaderDisplayState :=
  if isTransparent && !reverseFlag && !scrolled then ⟨false, false, false⟩
  else if isTransparent && reverseFlag && !scrolled then ⟨true, false, true⟩
  else if isTransparent && scrolled then ⟨true, true, true⟩
  else if !isTransparent && !scrolled then ⟨false, false, false⟩
  else ⟨true, true, true⟩

/-! ## Subscriber derivations (`HamburgerMenu`, `MenuItemClient`)

Each subscriber stores `reverseHeaderColors := eventFlag && isTransparent`
(read from the header's DOM attributes or from the broadcast event payload)
and then decides `shouldUseReverseColors := reverseHeaderColors || scrolled`. -/

/-- `HamburgerMenu`'s stored state: the broadcast flag AND-ed with the
header's `data-header-transparent` attribute. -/
def hamburgerReverseState (eventReverse isTransparent : Bool) : Bool :=
  eventReverse && isTransparent

/-- `HamburgerMenu.shouldUseReverseColors = reverseHeaderColors || scrolled`. -/
def hamburgerShouldUseReverseColors (eventReverse isTransparent scrolled : Bool) : Bool :=
  hamburgerReverseState eventReverse isTransparent || scrolled

/-- `MenuItemClient`'s stored state (same listener logic, separate code). -/
def menuItemReverseState (eventReverse isTransparent : Bool) : Bool :=
  eventReverse && isTransparent

/-- `MenuItemClient.shouldUseReverseColors = reverseHeaderColors || scrolled`. -/
def menuItemShouldUseReverseColors (eventReverse isTransparent scrolled : Bool) : Bool :=
  menuItemReverseState eventReverse isTransparent || scrolled

/-! ## Logo swap (`GlobalHeaderClient.handleScroll`, logo section)

The logo `<img>` element carries a mutable `src` and a mutable
`dataset.originalSrc` (absent until first written).  `logoOnScroll` is the
`data-logo-on-scroll` attribute of the logo block. -/

/-- Mutable state of the logo image element. -/
structure LogoState where
  src : String
  originalSrc : Option String
deriving Repr, DecidableEq

/-- One execution of the logo-swap section of `handleScroll`:

```
if (shouldSwapLogo && logoOnScroll) {
  if (!logoImg.dataset.originalSrc) logoImg.dataset.originalSrc = logoImg.src;
  logoImg.src = logoOnScroll;
} else if (!shouldSwapLogo && logoOnScroll) {
  if (logoImg.dataset.originalSrc) logoImg.src = logoImg.dataset.originalSrc;
}
```
-/
def logoStep (shouldSwapLogo : Bool) (logoOnScroll : Option String) (st : LogoState) :
    LogoState :=
  if shouldSwapLogo && optTruthy logoOnScroll then
    let st1 := if optTruthy st.originalSrc then st else { st with originalSrc := some st.src }
    { st1 with src := logoOnScroll.getD st1.src }
  else if !shouldSwapLogo && optTruthy logoOnScroll then
    if optTruthy st.originalSrc then { st with src := st.originalSrc.getD st.src } else st
  else st

/-! ## Page settings broadcast (`PageHeaderSettings`) -/

/-- The shared DOM state seen by `PageHeaderSettings`: whether the
`.global-header-template` element exists, and the current value of its
`data-reverse-header-colors` attribute. -/
structure HeaderDom where
  headerPresent : Bool
  reverseAttr : String
deriving Repr, DecidableEq

/-- The mount effect of `PageHeaderSettings`: if the header exists, set the
attribute to `'true'`/`'false'` and dispatch one `pageHeaderSettingsChange`
event carrying the flag.  Returns the new DOM state and the list of event
payloads dispatched. -/
def pageSettingsMount (reverseHeaderColors : Bool) (dom : HeaderDom) :
    HeaderDom × List Bool :=
  if dom.headerPresent then
    ({ dom with reverseAttr := if reverseHeaderColors then "true" else "false" },
      [reverseHeaderColors])
  else (dom, [])

/-- The unmount cleanup of `PageHeaderSettings`: if the header exists, set the
attribute to `'false'` and dispatch `{ reverseHeaderColors: false }`. -/
def pageSettingsUnmount (dom : HeaderDom) : HeaderDom × List Bool :=
  if dom.headerPresent then
    ({ dom with reverseAttr := "false" }, [false])
  else (dom, [])

/-- How a late subscriber reads the snapshot:
`header.getAttribute('data-reverse-header-colors') === 'true'`. -/
def readReverseAttr (dom : HeaderDom) : Bool :=
  dom.reverseAttr == "true"

/-! ## Page-path resolution (`buildPagePath`)

A page record carries its id, its slug, and an optional parent id; the pages
map is the id-keyed lookup the caller builds from the fetched page list. -/

structure Page where
  id : String
  slug : String
  parent_id : Option String
deriving Repr, DecidableEq

/-- The `while (currentPage)` loop of `buildPagePath`, with an explicit step
budget.  The budget is an artifact of the embedding only: `loop_stable` shows
that any budget beyond the number of map entries plus one gives the same
result, which is how the source loop terminates (the per-walk visited set
grows on every iteration that continues).

Per iteration: stop on a revisited id (cycle guard), record the id, prepend
the slug (`segments.unshift`), then follow `parent_id` when it is truthy
(JS: neither absent nor the empty string), else stop; a dangling parent id
makes the next `pagesMap.get` return nothing, ending the loop. -/
def buildPagePathLoop (pagesMap : List (String × Page)) :
    Nat → Option Page → List String → List String → List String
  | 0, _, _, segments => segments
  | _ + 1, none, _, segments => segments
  | fuel + 1, some p, visitedIds, segments =>
    if visitedIds.contains p.id then segments
    else
      let visitedIds1 := p.id :: visitedIds
      let segments1 := p.slug :: segments
      match p.parent_id with
      | some pid =>
        if pid == "" then segments1
        else buildPagePathLoop pagesMap fuel (pagesMap.lookup pid) visitedIds1 segments1
      | none => segments1

/-- `buildPagePath` with an explicit step budget. -/
def buildPagePathFuel (fuel : Nat) (pageId : String)
    (pagesMap : List (String × Page)) : String :=
  "/" ++ String.intercalate "/" (buildPagePathLoop pagesMap fuel (pagesMap.lookup pageId) [] [])

/-- Embedding of `buildPagePath(pageId, pagesMap)`: walk the parent chain
from `pageId`, prepending each visited slug, and join with `/`.  The budget
`pagesMap.length + 1` always suffices (`loop_stable`). -/
def buildPagePath (pageId : String) (pagesMap : List (String × Page)) : String :=
  buildPagePathFuel (pagesMap.length + 1) pageId pagesMap

/-- The distinct ids occurring among the values of the pages map; every id
the walk can ever visit is one of these. -/
def valueIds (pagesMap : List (String × Page)) : List String :=
  (pagesMap.map (fun kv => kv.2.id)).dedup

/-- Number of value ids not yet visited: the strictly decreasing measure of
the walk. -/
def remainingIds (pagesMap : List (String × Page)) (visitedIds : List String) : Nat :=
  ((valueIds pagesMap).filter (fun i => !(visitedIds.contains i))).length

/-! ## TTL caches (`fetchStandings`, `fetchTeamPlayers`) -/

/-- One cache entry: `{ data, timestamp }`.  Payloads are identified by a
numeric object identity, so "same reference" is expressible. -/
structure CacheEntry (α : Type) where
  data : α
  timestamp : Nat
deriving Repr, DecidableEq

/-- What one `fetch` of the external sports API can produce. -/
inductive FetchOutcome (α : Type) where
  | success (data : α)
  | httpFailure (statusText : String)
  | networkFailure (message : String)
deriving Repr, DecidableEq

/-- Result of one call: the returned value, the cache after the call, and
whether a network request was issued. -/
structure CallResult (α : Type) where
  value : α
  cache : List (String × CacheEntry α)
  networkCalled : Bool
deriving Repr, DecidableEq

/-- `CACHE_TTL = 300000` (5 minutes), shared by both lookups. -/
def CACHE_TTL : Nat := 300000

/-- Embedding of `fetchStandings(leagueId)`.  `apiSecret` models
`process.env.SMC_SECRET` (absent/empty is falsy), `now` models `Date.now()`,
`outcome` models what the single `fetch` would produce on this call.
Failures are `Except.error` (a thrown error / rejected promise). -/
def fetchStandings (apiSecret : String) (now : Nat)
    (cache : List (String × CacheEntry Nat)) (leagueId : String)
    (outcome : FetchOutcome Nat) : Except String (CallResult Nat) :=
  if apiSecret == "" then
    .error "SMC_SECRET is missing! Check your .env file."
  else
    let cacheKey := "standings_" ++ leagueId
    match cache.lookup cacheKey with
    | some cached =>
      if now - cached.timestamp < CACHE_TTL then
        .ok ⟨cached.data, cache, false⟩
      else
        match outcome with
        | .success data => .ok ⟨data, (cacheKey, ⟨data, now⟩) :: cache, true⟩
        | .httpFailure _ => .error "Failed to fetch standings"
        | .networkFailure msg => .error msg
    | none =>
      match outcome with
      | .success data => .ok ⟨data, (cacheKey, ⟨data, now⟩) :: cache, true⟩
      | .httpFailure _ => .error "Failed to fetch standings"
      | .networkFailure msg => .error msg

/-- Embedding of `fetchTeamPlayers(leagueId, teamId)`.  The payload is
`Player | null`, modelled as `Option Nat`.  The `try/catch` around the fetch
turns both a non-ok status and a network error into a logged `null` return:
the function never rejects. -/
def fetchTeamPlayers (apiSecret : String) (now : Nat)
    (cache : List (String × CacheEntry (Option Nat))) (leagueId teamId : String)
    (outcome : FetchOutcome Nat) : Except String (CallResult (Option Nat)) :=
  if apiSecret == "" then
    .ok ⟨none, cache, false⟩
  else
    let cacheKey := "players_" ++ leagueId ++ "_" ++ teamId
    match cache.lookup cacheKey with
    | some cached =>
      if now - cached.timestamp < CACHE_TTL then
        .ok ⟨cached.data, cache, false⟩
      else
        match outcome with
        | .success data => .ok ⟨some data, (cacheKey, ⟨some data, now⟩) :: cache, true⟩
        | .httpFailure _ => .ok ⟨none, cache, true⟩
        | .networkFailure _ => .ok ⟨none, cache, true⟩
    | none =>
      match outcome with
      | .success data => .ok ⟨some data, (cacheKey, ⟨some data, now⟩) :: cache, true⟩
      | .httpFailure _ => .ok ⟨none, cache, true⟩
      | .networkFailure _ => .ok ⟨none, cache, true⟩

/-! ## Concrete page collections used by the claims -/

/-- The three-page chain of spec §8.1: `A(root) → B(child of A) → C(child of B)`
with slugs `a`, `b`, `c`. -/
def chainPages : List (String × Page) :=
  [("A", ⟨"A", "a", none⟩), ("B", ⟨"B", "b", some "A"⟩), ("C", ⟨"C", "c", some "B"⟩)]

/-- The two-page parent cycle of spec §8.2: `X.parent = Y`, `Y.parent = X`. -/
def cyclePages : List (String × Page) :=
  [("X", ⟨"X", "x", some "Y"⟩), ("Y", ⟨"Y", "y", some "X"⟩)]

/-- A root page with an empty slug and a child (slug `b`) pointing at it. -/
def emptySlugPages : List (String × Page) :=
  [("R", ⟨"R", "", none⟩), ("B", ⟨"B", "b", some "R"⟩)]

/-- A single page whose `parent_id` points at an id missing from the map. -/
def danglingPages : List (String × Page) :=
  [("B", ⟨"B", "b", some "Z"⟩)]

/-! ## Helper lemmas about the path walk -/

theorem lookup_mem {α : Type} [BEq α] [LawfulBEq α] {β : Type} {a : α} {b : β} :
    ∀ {l : List (α × β)}, l.lookup a = some b → (a, b) ∈ l := by
  intro l
  induction l with
  | nil => intro h; simp [List.lookup] at h
  | cons kv rest ih =>
    intro h
    rw [List.lookup] at h
    by_cases hk : a == kv.1
    · simp [hk] at h
      have ha : a = kv.1 := eq_of_beq hk
      exact List.mem_cons.mpr (Or.inl (by cases kv; simp_all))
    · simp [hk] at h
      exact List.mem_cons.mpr (Or.inr (ih h))

theorem loop_none (m : List (String × Page)) (fuel : Nat) (v s : List String) :
    buildPagePathLoop m fuel none v s = s := by
  cases fuel <;> rfl

theorem mem_valueIds {m : List (String × Page)} {pid : String} {p : Page}
    (h : m.lookup pid = some p) : p.id ∈ valueIds m := by
  have hmem : (pid, p) ∈ m := lookup_mem h
  unfold valueIds
  rw [List.mem_dedup]
  exact List.mem_map.mpr ⟨(pid, p), hmem, rfl⟩

theorem remainingIds_lt {m : List (String × Page)} {i : String} {visited : List String}
    (hmem : i ∈ valueIds m) (hnv : visited.contains i = false) :
    remainingIds m (i :: visited) < remainingIds m visited := by
  unfold remainingIds
  have hsub : List.Sublist
      ((valueIds m).filter (fun j => !((i :: visited).contains j)))
      ((valueIds m).filter (fun j => !(visited.contains j))) := by
    apply List.monotone_filter_right
    intro a ha
    simp only [List.contains_cons, Bool.not_eq_true', Bool.or_eq_false_iff] at ha ⊢
    exact ha.2
  have hle := hsub.length_le
  rcases Nat.lt_or_ge
      ((valueIds m).filter (fun j => !((i :: visited).contains j))).length
      ((valueIds m).filter (fun j => !(visited.contains j))).length with hlt | hge
  · exact hlt
  · exfalso
    have heq := hsub.eq_of_length (Nat.le_antisymm hle hge)
    have hi2 : i ∈ (valueIds m).filter (fun j => !(visited.contains j)) := by
      rw [List.mem_filter]
      refine ⟨hmem, ?_⟩
      simp only [Bool.not_eq_true']
      exact hnv
    rw [← heq] at hi2
    rw [List.mem_filter] at hi2
    have hc : ((i :: visited).contains i) = true := by
      simp [List.contains_cons]
    simp [hc] at hi2

/-- Any step budget beyond `remainingIds` (plus one for the final check)
yields the same walk result: the loop terminates in at most that many
iterations because every continuing iteration visits a fresh page id. -/
theorem loop_stable (m : List (String × Page)) :
    ∀ (k fuel : Nat) (cur : Option Page) (visited segs : List String),
      (cur = none ∨ ∃ pid, cur = m.lookup pid) →
      remainingIds m visited ≤ k → k + 1 ≤ fuel →
      buildPagePathLoop m fuel cur visited segs =
        buildPagePathLoop m (k + 1) cur visited segs := by
  intro k
  induction k with
  | zero =>
    intro fuel cur visited segs hcur hrem hfuel
    match fuel, hfuel with
    | f + 1, _ =>
      cases cur with
      | none => rw [loop_none, loop_none]
      | some p =>
        simp only [buildPagePathLoop]
        by_cases hv : visited.contains p.id = true
        · rw [if_pos hv, if_pos hv]
        · rw [if_neg hv, if_neg hv]
          cases hp : p.parent_id with
          | none => rfl
          | some pid =>
            by_cases hpid : pid == ""
            · simp [hpid]
            · exfalso
              have hmem : p.id ∈ valueIds m := by
                rcases hcur with hc | ⟨pid0, hc⟩
                · exact absurd hc (by simp)
                · exact mem_valueIds hc.symm
              have hlt := remainingIds_lt hmem (by simpa using hv)
              omega
  | succ k' ih =>
    intro fuel cur visited segs hcur hrem hfuel
    match fuel, hfuel with
    | f + 1, _ =>
      cases cur with
      | none => rw [loop_none, loop_none]
      | some p =>
        simp only [buildPagePathLoop]
        by_cases hv : visited.contains p.id = true
        · rw [if_pos hv, if_pos hv]
        · rw [if_neg hv, if_neg hv]
          cases hp : p.parent_id with
          | none => rfl
          | some pid =>
            by_cases hpid : pid == ""
            · simp [hpid]
            · simp only [hpid, Bool.false_eq_true, if_false]
              have hmem : p.id ∈ valueIds m := by
                rcases hcur with hc | ⟨pid0, hc⟩
                · exact absurd hc (by simp)
                · exact mem_valueIds hc.symm
              have hlt := remainingIds_lt hmem (by simpa using hv)
              have hrem' : remainingIds m (p.id :: visited) ≤ k' := by omega
              have hf : k' + 1 ≤ f := by omega
              exact ih f (m.lookup pid) (p.id :: visited) (p.slug :: segs)
                (Or.inr ⟨pid, rfl⟩) hrem' hf

theorem remainingIds_le_length (m : List (String × Page)) (visited : List String) :
    remainingIds m visited ≤ m.length := by
  unfold remainingIds
  calc ((valueIds m).filter (fun i => !(visited.contains i))).length
      ≤ (valueIds m).length := (valueIds m).length_filter_le _
    _ ≤ (m.map (fun kv => kv.2.id)).length := (List.dedup_sublist _).length_le
    _ = m.length := List.length_map m _

/-- `pagesMap.length + 1` steps always suffice for the walk. -/
theorem buildPagePathFuel_stable (m : List (String × Page)) (pageId : String)
    (fuel : Nat) (h : m.length + 1 ≤ fuel) :
    buildPagePathFuel fuel pageId m = buildPagePath pageId m := by
  unfold buildPagePath buildPagePathFuel
  have := loop_stable m m.length fuel (m.lookup pageId) [] []
    (Or.inr ⟨pageId, rfl⟩) (remainingIds_le_length m []) h
  rw [this]

/-- A root page (no parent reference) resolves to `/slug`. -/
theorem buildPagePath_root (m : List (String × Page)) (pageId : String) (p : Page)
    (hlook : m.lookup pageId = some p) (hroot : p.parent_id = none) :
    buildPagePath pageId m = "/" ++ p.slug := by
  unfold buildPagePath buildPagePathFuel
  rw [hlook]
  simp only [buildPagePathLoop]
  rw [hroot]
  simp
  rfl

/-- A dangling parent reference ends the walk exactly like a root does. -/
theorem buildPagePath_dangling (m : List (String × Page)) (pageId : String) (p : Page)
    (hlook : m.lookup pageId = some p) (pid : String) (hpar : p.parent_id = some pid)
    (hne : pid ≠ "") (hmiss : m.lookup pid = none) :
    buildPagePath pageId m = "/" ++ p.slug := by
  unfold buildPagePath buildPagePathFuel
  rw [hlook]
  simp only [buildPagePathLoop]
  rw [hpar]
  have hb : (pid == "") = false := by simp [hne]
  simp [hb, hmiss, loop_none]
  rfl

/-! ## Claim theorems -/

/-- C1: for every combination of the three booleans `isTransparent`,
`reverseHeaderColors` (reverseFlag) and `scrolled`, the derivation in
`GlobalHeaderClient.handleScroll` computes
`shouldApplyReverseTextColors = isTransparent ? (reverseFlag || scrolled) : scrolled`,
`shouldApplyBackground = scrolled`, and
`shouldSwapLogo = isTransparent ? (reverseFlag || scrolled) : scrolled`,
matching the authoritative table of spec §4.3 on all 8 input combinations. -/
theorem claim_C1_derivation_table_exact :
    ∀ isTransparent reverseFlag scrolled : Bool,
      headerDerivation isTransparent reverseFlag scrolled =
        specDerivationTable isTransparent reverseFlag scrolled := by
  decide

/-- C2: for all values of the three input booleans, the reversed-styling
decision computed independently by the subscriber components
(`HamburgerMenu` and `MenuItemClient` compute
`shouldUseReverseColors = (eventFlag AND isTransparent) || scrolled`) equals
the header container's own `shouldApplyReverseTextColors =
isTransparent ? (reverseHeaderColors || scrolled) : scrolled`. -/
theorem claim_C2_subscribers_agree :
    ∀ isTransparent eventReverse scrolled : Bool,
      hamburgerShouldUseReverseColors eventReverse isTransparent scrolled =
          (headerDerivation isTransparent eventReverse scrolled).applyReverseText ∧
      menuItemShouldUseReverseColors eventReverse isTransparent scrolled =
          (headerDerivation isTransparent eventReverse scrolled).applyReverseText := by
  decide

/-- C3: for every page collection forming a parent-linked chain
`A(root) → B(child of A) → C(child of B)` with slugs `a`, `b`, `c` (ids
pairwise distinct and non-empty so the parent references are truthy),
path building yields `/a` for `A`, `/a/b` for `B` and `/a/b/c` for `C`;
and in any page collection, every root page (no parent) yields `/slug`. -/
theorem claim_C3_chain_and_root (iA iB iC a b c : String)
    (hAB : iA ≠ iB) (hAC : iA ≠ iC) (hBC : iB ≠ iC)
    (hA : iA ≠ "") (hB : iB ≠ "")
    (m : List (String × Page)) (pageId : String) (p : Page)
    (hlook : m.lookup pageId = some p) (hroot : p.parent_id = none) :
    buildPagePath iA [(iA, ⟨iA, a, none⟩), (iB, ⟨iB, b, some iA⟩), (iC, ⟨iC, c, some iB⟩)]
        = "/" ++ a ∧
    buildPagePath iB [(iA, ⟨iA, a, none⟩), (iB, ⟨iB, b, some iA⟩), (iC, ⟨iC, c, some iB⟩)]
        = "/" ++ (a ++ "/" ++ b) ∧
    buildPagePath iC [(iA, ⟨iA, a, none⟩), (iB, ⟨iB, b, some iA⟩), (iC, ⟨iC, c, some iB⟩)]
        = "/" ++ (a ++ "/" ++ b ++ "/" ++ c) ∧
    buildPagePath pageId m = "/" ++ p.slug := by
  have bAB : (iB == iA) = false := by simp [hAB.symm]
  have bCA : (iC == iA) = false := by simp [hAC.symm]
  have bCB : (iC == iB) = false := by simp [hBC.symm]
  have bBC : (iB == iC) = false := by simp [hBC]
  have bAC : (iA == iC) = false := by simp [hAC]
  have bAA : (iA == "") = false := by simp [hA]
  have bBB : (iB == "") = false := by simp [hB]
  refine ⟨?_, ?_, ?_, buildPagePath_root m pageId p hlook hroot⟩
  · unfold buildPagePath buildPagePathFuel
    simp [List.lookup, buildPagePathLoop]
    rfl
  · unfold buildPagePath buildPagePathFuel
    simp [List.lookup, bAB, buildPagePathLoop, bBB, bAA, hAB]
    rfl
  · unfold buildPagePath buildPagePathFuel
    simp [List.lookup, bCA, bCB, bAB, buildPagePathLoop, bBB, bAA, bBC, bAC, hAB, hAC, hBC]
    rfl

/-- Witness for C3 at the concrete chain of spec §8.1. -/
theorem claim_C3_witness :
    buildPagePath "A" [("A", ⟨"A", "a", none⟩), ("B", ⟨"B", "b", some "A"⟩),
        ("C", ⟨"C", "c", some "B"⟩)] = "/" ++ "a" ∧
    buildPagePath "B" [("A", ⟨"A", "a", none⟩), ("B", ⟨"B", "b", some "A"⟩),
        ("C", ⟨"C", "c", some "B"⟩)] = "/" ++ ("a" ++ "/" ++ "b") ∧
    buildPagePath "C" [("A", ⟨"A", "a", none⟩), ("B", ⟨"B", "b", some "A"⟩),
        ("C", ⟨"C", "c", some "B"⟩)] = "/" ++ ("a" ++ "/" ++ "b" ++ "/" ++ "c") ∧
    buildPagePath "A" chainPages = "/" ++ (Page.mk "A" "a" none).slug :=
  claim_C3_chain_and_root "A" "B" "C" "a" "b" "c"
    (by decide) (by decide) (by decide) (by decide) (by decide)
    chainPages "A" ⟨"A", "a", none⟩ (by decide) rfl

/-- C4: for every pages map, including ones whose parent references form a
cycle, the walk terminates in a number of iterations bounded by the number
of map entries plus one: any step budget of at least `pagesMap.length + 1`
gives the same result as the canonical walk.  At the concrete two-page cycle
`X.parent = Y`, `Y.parent = X` the walk returns the partial paths
accumulated before the cycle repeats, without any exception (the embedding
is total). -/
theorem claim_C4_cycle_termination (m : List (String × Page)) (pageId : String)
    (fuel : Nat) (h : m.length + 1 ≤ fuel) :
    buildPagePathFuel fuel pageId m = buildPagePath pageId m ∧
    buildPagePath "X" cyclePages = "/y/x" ∧
    buildPagePath "Y" cyclePages = "/x/y" :=
  ⟨buildPagePathFuel_stable m pageId fuel h, rfl, rfl⟩

/-- Witness for C4: budget 5 on the two-entry cycle map. -/
theorem claim_C4_witness :
    buildPagePathFuel 5 "X" cyclePages = buildPagePath "X" cyclePages ∧
    buildPagePath "X" cyclePages = "/y/x" ∧
    buildPagePath "Y" cyclePages = "/x/y" :=
  claim_C4_cycle_termination cyclePages "X" 5 (by decide)

/-- C5 counterexample: the walk does NOT filter empty slug segments.  With a
root page whose slug is the empty string and a child with slug `b`, the
child's path is `//b` — it contains an empty segment, contradicting the
claim that such a path can never be produced. -/
theorem claim_C5_counterexample :
    buildPagePath "B" emptySlugPages = "//b" ∧
    buildPagePath "B" emptySlugPages ≠ "/b" := by
  constructor
  · rfl
  · decide

/-- C5 as amended: empty slug segments are NOT filtered out — an empty slug
contributes an empty segment to the joined path (concretely, `//b` for a
child of an empty-slug root) — while the second half of the claim holds: a
page whose truthy `parent_id` refers to a page missing from the lookup
terminates the walk at that point, exactly like reaching a root. -/
theorem claim_C5_amended_behavior (m : List (String × Page)) (pageId : String)
    (p : Page) (hlook : m.lookup pageId = some p) (pid : String)
    (hpar : p.parent_id = some pid) (hne : pid ≠ "") (hmiss : m.lookup pid = none) :
    buildPagePath pageId m = "/" ++ p.slug ∧
    buildPagePath "B" emptySlugPages = "//b" :=
  ⟨buildPagePath_dangling m pageId p hlook pid hpar hne hmiss, rfl⟩

/-- Witness for the amended C5 at the concrete dangling-parent page. -/
theorem claim_C5_witness :
    buildPagePath "B" danglingPages = "/" ++ (Page.mk "B" "b" (some "Z")).slug ∧
    buildPagePath "B" emptySlugPages = "//b" :=
  claim_C5_amended_behavior danglingPages "B" ⟨"B", "b", some "Z"⟩ (by decide)
    "Z" rfl (by decide) (by decide)

/-- C6 counterexample: running the swap twice in the reversed state CAN
overwrite the remembered original source.  If the image's current `src` is
the empty string, the first swap records `originalSrc = ''`, which is falsy,
so the second swap records again — overwriting the remembered original with
the alternate logo URL. -/
theorem claim_C6_counterexample :
    (logoStep true (some "alt") (logoStep true (some "alt") ⟨"", none⟩)).originalSrc ≠
      (logoStep true (some "alt") ⟨"", none⟩).originalSrc ∧
    (logoStep true (some "alt") ⟨"", none⟩).originalSrc = some "" ∧
    (logoStep true (some "alt") (logoStep true (some "alt") ⟨"", none⟩)).originalSrc =
      some "alt" := by
  decide

/-- C6 as amended: provided the image's source is non-empty when the first
swap happens (and no original has been remembered yet), the original src is
recorded exactly once, the second swap in the reversed state does not
overwrite it, and a subsequent restore sets the image source back to exactly
that first-remembered original; if the source is the empty string, the
second swap re-records and the original is lost (see the counterexample). -/
theorem claim_C6_amended_swap_idempotent (st : LogoState) (logo : String)
    (hlogo : logo ≠ "") (hsrc : st.src ≠ "") (horig : st.originalSrc = none) :
    (logoStep true (some logo) st).originalSrc = some st.src ∧
    (logoStep true (some logo) (logoStep true (some logo) st)).originalSrc =
      (logoStep true (some logo) st).originalSrc ∧
    (logoStep false (some logo)
        (logoStep true (some logo) (logoStep true (some logo) st))).src = st.src := by
  cases st with
  | mk src orig =>
    simp only at horig
    subst horig
    simp only at hsrc
    simp [logoStep, optTruthy, hlogo, hsrc]

/-- Witness for the amended C6 at a concrete non-empty source. -/
theorem claim_C6_witness :
    (logoStep true (some "alt") ⟨"orig", none⟩).originalSrc =
      some (LogoState.mk "orig" none).src ∧
    (logoStep true (some "alt") (logoStep true (some "alt") ⟨"orig", none⟩)).originalSrc =
      (logoStep true (some "alt") ⟨"orig", none⟩).originalSrc ∧
    (logoStep false (some "alt")
        (logoStep true (some "alt") (logoStep true (some "alt") ⟨"orig", none⟩))).src =
      (LogoState.mk "orig" none).src :=
  claim_C6_amended_swap_idempotent ⟨"orig", none⟩ "alt" (by decide) (by decide) rfl

/-- C7: mounting a page component that declares `reverseHeaderColors = true`
and then unmounting leaves the shared `data-reverse-header-colors` attribute
at `'false'`, broadcasts `{ reverseHeaderColors: false }` on the window
channel, a late subscriber's snapshot read observes `false`, and a next
mounted page with the default setting keeps the attribute at `'false'`. -/
theorem claim_C7_unmount_reset (dom : HeaderDom) (h : dom.headerPresent = true) :
    ((pageSettingsUnmount (pageSettingsMount true dom).1).1).reverseAttr = "false" ∧
    (pageSettingsUnmount (pageSettingsMount true dom).1).2 = [false] ∧
    readReverseAttr (pageSettingsUnmount (pageSettingsMount true dom).1).1 = false ∧
    ((pageSettingsMount false
        (pageSettingsUnmount (pageSettingsMount true dom).1).1).1).reverseAttr
      = "false" := by
  simp [pageSettingsMount, pageSettingsUnmount, readReverseAttr, h]

/-- Witness for C7: a present header whose attribute starts at `'true'`. -/
theorem claim_C7_witness :
    ((pageSettingsUnmount (pageSettingsMount true ⟨true, "true"⟩).1).1).reverseAttr
      = "false" ∧
    (pageSettingsUnmount (pageSettingsMount true ⟨true, "true"⟩).1).2 = [false] ∧
    readReverseAttr (pageSettingsUnmount (pageSettingsMount true ⟨true, "true"⟩).1).1
      = false ∧
    ((pageSettingsMount false
        (pageSettingsUnmount (pageSettingsMount true ⟨true, "true"⟩).1).1).1).reverseAttr
      = "false" :=
  claim_C7_unmount_reset ⟨true, "true"⟩ rfl

/-- C8: for both TTL-cached lookups, a first call on an empty cache issues
one network request and stores `{ data, timestamp }` under the composite
key; a second call within the 5-minute TTL returns exactly the cached
payload without a network request and leaves the cache untouched; and the
first call at or past TTL expiry issues exactly one fresh request whose
result replaces the entry observed under the key. -/
theorem claim_C8_cache_ttl (secret leagueId teamId : String) (hsec : secret ≠ "")
    (t0 t1 t2 : Nat) (d0 d1 p0 p1 : Nat)
    (hhit : t1 - t0 < CACHE_TTL) (hexp : CACHE_TTL ≤ t2 - t0) :
    fetchStandings secret t0 [] leagueId (.success d0) =
      .ok ⟨d0, [("standings_" ++ leagueId, ⟨d0, t0⟩)], true⟩ ∧
    fetchStandings secret t1 [("standings_" ++ leagueId, ⟨d0, t0⟩)] leagueId (.success d1) =
      .ok ⟨d0, [("standings_" ++ leagueId, ⟨d0, t0⟩)], false⟩ ∧
    fetchStandings secret t2 [("standings_" ++ leagueId, ⟨d0, t0⟩)] leagueId (.success d1) =
      .ok ⟨d1, [("standings_" ++ leagueId, ⟨d1, t2⟩), ("standings_" ++ leagueId, ⟨d0, t0⟩)],
        true⟩ ∧
    ([("standings_" ++ leagueId, (⟨d1, t2⟩ : CacheEntry Nat)),
        ("standings_" ++ leagueId, ⟨d0, t0⟩)].lookup ("standings_" ++ leagueId))
      = some ⟨d1, t2⟩ ∧
    fetchTeamPlayers secret t0 [] leagueId teamId (.success p0) =
      .ok ⟨some p0, [("players_" ++ leagueId ++ "_" ++ teamId, ⟨some p0, t0⟩)], true⟩ ∧
    fetchTeamPlayers secret t1 [("players_" ++ leagueId ++ "_" ++ teamId, ⟨some p0, t0⟩)]
        leagueId teamId (.success p1) =
      .ok ⟨some p0, [("players_" ++ leagueId ++ "_" ++ teamId, ⟨some p0, t0⟩)], false⟩ ∧
    fetchTeamPlayers secret t2 [("players_" ++ leagueId ++ "_" ++ teamId, ⟨some p0, t0⟩)]
        leagueId teamId (.success p1) =
      .ok ⟨some p1, [("players_" ++ leagueId ++ "_" ++ teamId, ⟨some p1, t2⟩),
        ("players_" ++ leagueId ++ "_" ++ teamId, ⟨some p0, t0⟩)], true⟩ := by
  have hb : (secret == "") = false := by simp [hsec]
  have hnexp : ¬ (t2 - t0 < CACHE_TTL) := by omega
  refine ⟨?_, ?_, ?_, ?_, ?_, ?_, ?_⟩ <;>
    simp [fetchStandings, fetchTeamPlayers, hb, List.lookup, hhit, hnexp]

/-- Witness for C8 with a controllable clock: `t0 = 0`, a hit at `t1 = 100`,
expiry at `t2 = 300000`. -/
theorem claim_C8_witness :
    fetchStandings "s" 0 [] "L" (.success 1) =
      .ok ⟨1, [("standings_" ++ "L", ⟨1, 0⟩)], true⟩ ∧
    fetchStandings "s" 100 [("standings_" ++ "L", ⟨1, 0⟩)] "L" (.success 2) =
      .ok ⟨1, [("standings_" ++ "L", ⟨1, 0⟩)], false⟩ ∧
    fetchStandings "s" 300000 [("standings_" ++ "L", ⟨1, 0⟩)] "L" (.success 2) =
      .ok ⟨2, [("standings_" ++ "L", ⟨2, 300000⟩), ("standings_" ++ "L", ⟨1, 0⟩)], true⟩ ∧
    ([("standings_" ++ "L", (⟨2, 300000⟩ : CacheEntry Nat)),
        ("standings_" ++ "L", ⟨1, 0⟩)].lookup ("standings_" ++ "L")) = some ⟨2, 300000⟩ ∧
    fetchTeamPlayers "s" 0 [] "L" "T" (.success 3) =
      .ok ⟨some 3, [("players_" ++ "L" ++ "_" ++ "T", ⟨some 3, 0⟩)], true⟩ ∧
    fetchTeamPlayers "s" 100 [("players_" ++ "L" ++ "_" ++ "T", ⟨some 3, 0⟩)] "L" "T"
        (.success 4) =
      .ok ⟨some 3, [("players_" ++ "L" ++ "_" ++ "T", ⟨some 3, 0⟩)], false⟩ ∧
    fetchTeamPlayers "s" 300000 [("players_" ++ "L" ++ "_" ++ "T", ⟨some 3, 0⟩)] "L" "T"
        (.success 4) =
      .ok ⟨some 4, [("players_" ++ "L" ++ "_" ++ "T", ⟨some 4, 300000⟩),
        ("players_" ++ "L" ++ "_" ++ "T", ⟨some 3, 0⟩)], true⟩ :=
  claim_C8_cache_ttl "s" "L" "T" (by decide) 0 100 300000 1 2 3 4 (by decide) (by decide)

/-- C9 counterexample: `fetchTeamPlayers` does NOT raise/reject on a
non-success HTTP status — the `try/catch` swallows the failure and the call
resolves successfully with `null`. -/
theorem claim_C9_counterexample :
    fetchTeamPlayers "sec" 0 [] "1" "2" (.httpFailure "Internal Server Error") =
      .ok ⟨none, [], true⟩ := by
  rfl

/-- C9 as amended: on a non-success HTTP status or a network error,
`fetchStandings` propagates a generic fetch error to the caller (a thrown
`Failed to fetch standings` for a bad status, the rejection itself for a
network error), while `fetchTeamPlayers` catches the failure and resolves
with `null` (absence) instead of rejecting, leaving its cache unchanged. -/
theorem claim_C9_amended_error_handling (secret leagueId teamId : String)
    (hsec : secret ≠ "") (now : Nat) (cacheS : List (String × CacheEntry Nat))
    (cacheP : List (String × CacheEntry (Option Nat)))
    (hmissS : cacheS.lookup ("standings_" ++ leagueId) = none)
    (hmissP : cacheP.lookup ("players_" ++ leagueId ++ "_" ++ teamId) = none)
    (statusText message : String) :
    fetchStandings secret now cacheS leagueId (.httpFailure statusText) =
      .error "Failed to fetch standings" ∧
    fetchStandings secret now cacheS leagueId (.networkFailure message) = .error message ∧
    fetchTeamPlayers secret now cacheP leagueId teamId (.httpFailure statusText) =
      .ok ⟨none, cacheP, true⟩ ∧
    fetchTeamPlayers secret now cacheP leagueId teamId (.networkFailure message) =
      .ok ⟨none, cacheP, true⟩ := by
  have hb : (secret == "") = false := by simp [hsec]
  refine ⟨?_, ?_, ?_, ?_⟩ <;>
    simp [fetchStandings, fetchTeamPlayers, hb, hmissS, hmissP]

/-- Witness for the amended C9 on empty caches. -/
theorem claim_C9_witness :
    fetchStandings "s" 7 [] "L" (.httpFailure "Bad Gateway") =
      .error "Failed to fetch standings" ∧
    fetchStandings "s" 7 [] "L" (.networkFailure "network down") = .error "network down" ∧
    fetchTeamPlayers "s" 7 [] "L" "T" (.httpFailure "Bad Gateway") = .ok ⟨none, [], true⟩ ∧
    fetchTeamPlayers "s" 7 [] "L" "T" (.networkFailure "network down") =
      .ok ⟨none, [], true⟩ :=
  claim_C9_amended_error_handling "s" "L" "T" (by decide) 7 [] [] rfl rfl
    "Bad Gateway" "network down"

/-- C10: for every id absent from the pages lookup map, the walk returns the
root path `/` — no segments are collected, nothing is thrown, and the
function is total over arbitrary (id, map) inputs. -/
theorem claim_C10_missing_id_root_path (m : List (String × Page)) (pageId : String)
    (h : m.lookup pageId = none) :
    buildPagePath pageId m = "/" := by
  unfold buildPagePath buildPagePathFuel
  rw [h, loop_none]
  rfl

/-- Witness for C10: an id looked up in the empty map. -/
theorem claim_C10_witness : buildPagePath "missing" [] = "/" :=
  claim_C10_missing_id_root_path [] "missing" rfl
